import Mathlib

/-!
Shallow embedding of `libs/ktxreader/src/Ktx2Reader.cpp` (the KTX2 texture
loader of the filament repository) and proofs about its format negotiation,
error handling, buffer ownership and logging behaviour.

External components (the BasisU transcoder, the filament Engine/Texture
backend) are modelled as oracle fields of an `Env` record: `load` only
observes their boolean answers and a few integers, so this captures every
control-flow decision the C++ function makes.  Machine integers that appear
(`faces`, `layers`, `levels`, block counts) are far below 2^32 in any run the
claims speak about, so they are modelled as `Nat`.

`assert(false)` stops are modelled as distinguished outcomes (debug-build
semantics, which is what the source's comments describe).
-/

/-- `ktxreader::Ktx2Reader::Transform` : the color-space transform tag. -/
inductive Transform
  | sRGB
  | LINEAR
deriving DecidableEq

/-- The subset of `filament::Texture::InternalFormat` enumerants mentioned by
`Ktx2Reader.cpp`, plus a few enumerants of the real enum that the file's
`default:` branches apply to (any enumerant outside the fourteen handled ones
behaves like these). -/
inductive InternalFormat
  | ETC2_EAC_SRGBA8
  | ETC2_EAC_RGBA8
  | DXT1_SRGB
  | DXT1_RGB
  | DXT3_SRGBA
  | DXT3_RGBA
  | SRGB8_ALPHA8_ASTC_4x4
  | RGBA_ASTC_4x4
  | EAC_R11
  | EAC_RG11
  | SRGB8_A8
  | RGBA8
  | RGB565
  | RGBA4
  | R8          -- representative enumerants hitting the `default:` branches
  | RG8
  | RGB8
  | RGBA16F
deriving DecidableEq

/-- The `basist::transcoder_texture_format` enumerants `Ktx2Reader.cpp` uses. -/
inductive TranscoderTextureFormat
  | cTFETC2_RGBA
  | cTFBC1_RGB
  | cTFBC3_RGBA
  | cTFASTC_4x4_RGBA
  | cTFETC2_EAC_R11
  | cTFETC2_EAC_RG11
  | cTFRGBA32
  | cTFRGB565
  | cTFRGBA4444
deriving DecidableEq

/-- The `filament::Texture::CompressedType` enumerants `Ktx2Reader.cpp` uses. -/
inductive CompressedType
  | ETC2_EAC_RGBA8
  | ETC2_EAC_SRGBA8
  | DXT1_RGB
  | DXT1_SRGB
  | DXT3_RGBA
  | DXT3_SRGBA
  | RGBA_ASTC_4x4
  | SRGB8_ALPHA8_ASTC_4x4
  | EAC_R11
  | EAC_RG11
deriving DecidableEq

/-- The `filament::Texture::Type` (uncompressed pixel data type) enumerants
used by `getFinalFormatInfo`. -/
inductive PixelType
  | UBYTE
  | USHORT
  | USHORT_565
deriving DecidableEq

/-- The `filament::Texture::Format` (uncompressed pixel format) enumerants
used by `getFinalFormatInfo`. -/
inductive PixelFormat
  | RGBA
  | RGB
deriving DecidableEq

/-- The anonymous-namespace `FinalFormatInfo` struct of `Ktx2Reader.cpp`.
The C++ struct's leading `isSupported` flag is modelled by wrapping the rest
in `Option` (`getFinalFormatInfo` returns `{false}` for unsupported formats);
fields the compressed rows leave value-initialized (`{}`) are `none`. -/
structure FinalFormatInfo where
  isCompressed : Bool
  transformFunction : Transform
  basisFormat : TranscoderTextureFormat
  compressedPixelDataType : Option CompressedType
  pixelDataType : Option PixelType
  pixelDataFormat : Option PixelFormat
deriving DecidableEq

/-- `getFinalFormatInfo` of `Ktx2Reader.cpp` (lines 47-78), row for row.
`none` models the `default: return {false};` row. -/
def getFinalFormatInfo : InternalFormat → Option FinalFormatInfo
  | .ETC2_EAC_SRGBA8 =>
      some ⟨true, .sRGB, .cTFETC2_RGBA, some .ETC2_EAC_RGBA8, none, none⟩
  | .ETC2_EAC_RGBA8 =>
      some ⟨true, .LINEAR, .cTFETC2_RGBA, some .ETC2_EAC_SRGBA8, none, none⟩
  | .DXT1_SRGB =>
      some ⟨true, .sRGB, .cTFBC1_RGB, some .DXT1_RGB, none, none⟩
  | .DXT1_RGB =>
      some ⟨true, .LINEAR, .cTFBC1_RGB, some .DXT1_SRGB, none, none⟩
  | .DXT3_SRGBA =>
      some ⟨true, .sRGB, .cTFBC3_RGBA, some .DXT3_RGBA, none, none⟩
  | .DXT3_RGBA =>
      some ⟨true, .LINEAR, .cTFBC3_RGBA, some .DXT3_SRGBA, none, none⟩
  | .SRGB8_ALPHA8_ASTC_4x4 =>
      some ⟨true, .sRGB, .cTFASTC_4x4_RGBA, some .RGBA_ASTC_4x4, none, none⟩
  | .RGBA_ASTC_4x4 =>
      some ⟨true, .LINEAR, .cTFASTC_4x4_RGBA, some .SRGB8_ALPHA8_ASTC_4x4, none, none⟩
  | .EAC_R11 =>
      some ⟨true, .LINEAR, .cTFETC2_EAC_R11, some .EAC_R11, none, none⟩
  | .EAC_RG11 =>
      some ⟨true, .LINEAR, .cTFETC2_EAC_RG11, some .EAC_RG11, none, none⟩
  | .SRGB8_A8 =>
      some ⟨false, .sRGB, .cTFRGBA32, none, some .UBYTE, some .RGBA⟩
  | .RGBA8 =>
      some ⟨false, .LINEAR, .cTFRGBA32, none, some .UBYTE, some .RGBA⟩
  | .RGB565 =>
      some ⟨false, .LINEAR, .cTFRGB565, none, some .USHORT_565, some .RGB⟩
  | .RGBA4 =>
      some ⟨false, .LINEAR, .cTFRGBA4444, none, some .USHORT, some .RGBA⟩
  | _ => none

/-- `convertFormat` of `Ktx2Reader.cpp` (lines 101-179): the boolean result
plus the two out-parameters `*dest` (BasisU format) and `*pTransform`,
modelled as `Option (dest × transform)`. -/
def convertFormat : InternalFormat → Option (TranscoderTextureFormat × Transform)
  | .ETC2_EAC_SRGBA8 => some (.cTFETC2_RGBA, .sRGB)
  | .ETC2_EAC_RGBA8 => some (.cTFETC2_RGBA, .LINEAR)
  | .DXT1_SRGB => some (.cTFBC1_RGB, .sRGB)
  | .DXT1_RGB => some (.cTFBC1_RGB, .LINEAR)
  | .DXT3_SRGBA => some (.cTFBC3_RGBA, .sRGB)
  | .DXT3_RGBA => some (.cTFBC3_RGBA, .LINEAR)
  | .SRGB8_ALPHA8_ASTC_4x4 => some (.cTFASTC_4x4_RGBA, .sRGB)
  | .RGBA_ASTC_4x4 => some (.cTFASTC_4x4_RGBA, .LINEAR)
  | .EAC_R11 => some (.cTFETC2_EAC_R11, .LINEAR)
  | .EAC_RG11 => some (.cTFETC2_EAC_RG11, .LINEAR)
  | .SRGB8_A8 => some (.cTFRGBA32, .sRGB)
  | .RGBA8 => some (.cTFRGBA32, .LINEAR)
  | .RGB565 => some (.cTFRGB565, .LINEAR)
  | .RGBA4 => some (.cTFRGBA4444, .LINEAR)
  | _ => none

/-- `Ktx2Reader::requestFormat` (lines 195-207): `mRequestedFormats` is the
first component of the state; the returned pair is (C++ return value, list
after the call).  The C++ first runs `convertFormat`, then scans the list for
a duplicate, then does `push_back`. -/
def requestFormat (formats : List InternalFormat) (format : InternalFormat) :
    Bool × List InternalFormat :=
  match convertFormat format with
  | none => (false, formats)
  | some _ =>
    if format ∈ formats then (false, formats)
    else (true, formats ++ [format])

/-- The environment a `load` call runs against: answers of the BasisU
transcoder (`mTranscoder`) and of the filament engine, which `load` only
observes through these values.  `basisSupported bf` is
`basis_is_format_supported(bf, mTranscoder->get_format())` (the container's
source format is folded in); `deviceSupported f` is
`Texture::isTextureFormatSupported(mEngine, f)`; `levelInfoOk i` is the
boolean result of `get_image_level_info` for mip level `i`;
`transcodeOk i` is the result of `transcode_image_level` for level `i`. -/
structure Env where
  initOk : Bool
  startOk : Bool
  faces : Nat
  layers : Nat
  levels : Nat
  basisSupported : TranscoderTextureFormat → Bool
  deviceSupported : InternalFormat → Bool
  levelInfoOk : Nat → Bool
  transcodeOk : Nat → Bool

/-- The diagnostic messages `load` can write to `utils::slog.e`, one
constructor per message string in the source. -/
inductive LogMsg
  | initFailed              -- "BasisU transcoder init failed."
  | startFailed             -- "BasisU start_transcoding failed."
  | cubemapsUnsupported     -- "Cubemaps are not yet supported."
  | arraysUnsupported       -- "Texture arrays are not yet supported."
  | noCompatibleFormat      -- "Unable to decode any of the requested formats."
  | transcodeFailed (level : Nat)  -- "Failed to transcode level <level>"
deriving DecidableEq

/-- The distinct `return nullptr` exits of `load`, one per early-return site
(the spec names them CodecInitError, TranscodeStartError,
UnsupportedLayoutError, NoCompatibleFormatError, TranscodeError). -/
inductive LoadError
  | codecInit
  | transcodeStart
  | unsupportedLayout
  | noCompatibleFormat
  | transcodeFail (level : Nat)
deriving DecidableEq

/-- What a `load` call comes to: a texture (with its resolved format and the
list of mip levels whose image was set), a `nullptr` failure, or one of the
two `assert(false)` stops in the format switch. -/
inductive Outcome
  | texture (fmt : InternalFormat) (imageLevels : List Nat)
  | failure (e : LoadError)
  | assertTodoUncompressed     -- assert(false && "TODO: Uncompressed types ...")
  | assertUnreachableDefault   -- assert(false && "Unreachable due to the earlier pass ...")
deriving DecidableEq

/-- The possible results of the `switch (resolvedFormat)` in `load`
(lines 305-327). -/
inductive SwitchResult
  | compressed (c : CompressedType)
  | uncompressedTodo
  | unreachableDefault
deriving DecidableEq

/-- The `switch (resolvedFormat)` of `load` (lines 305-327), case for case:
ten compressed cases setting `cdatatype`, four uncompressed cases reaching
`assert(false && "TODO...")`, and the `default:` assert. -/
def loadFormatSwitch : InternalFormat → SwitchResult
  | .ETC2_EAC_RGBA8 => .compressed .ETC2_EAC_RGBA8
  | .ETC2_EAC_SRGBA8 => .compressed .ETC2_EAC_SRGBA8
  | .DXT1_RGB => .compressed .DXT1_RGB
  | .DXT1_SRGB => .compressed .DXT1_SRGB
  | .DXT3_RGBA => .compressed .DXT3_RGBA
  | .DXT3_SRGBA => .compressed .DXT3_SRGBA
  | .RGBA_ASTC_4x4 => .compressed .RGBA_ASTC_4x4
  | .SRGB8_ALPHA8_ASTC_4x4 => .compressed .SRGB8_ALPHA8_ASTC_4x4
  | .EAC_R11 => .compressed .EAC_R11
  | .EAC_RG11 => .compressed .EAC_RG11
  | .SRGB8_A8 => .uncompressedTodo
  | .RGBA8 => .uncompressedTodo
  | .RGB565 => .uncompressedTodo
  | .RGBA4 => .uncompressedTodo
  | _ => .unreachableDefault

/-- The inner per-level loop of the negotiation pass (lines 270-275): for
each level it calls `get_image_level_info` and, when that fails, `continue`s
to the next level — which is also what falling off the loop body does, so the
loop has no effect besides the probe calls themselves. -/
def probeLevels (env : Env) : List Nat → Unit
  | [] => ()
  | i :: rest =>
    if !env.levelInfoOk i then probeLevels env rest else probeLevels env rest

/-- The negotiation pass of `load` (lines 250-279): walk `mRequestedFormats`
in order; `continue` past a format whose `convertFormat` fails, whose implied
transform differs from the call's, whose BasisU format the codec does not
support for the container, or which the device does not support; on the first
survivor, probe the levels, set `found`/`resolvedFormat` and `break`. -/
def negotiateFormat (env : Env) (transform : Transform) :
    List InternalFormat → Option InternalFormat
  | [] => none
  | f :: rest =>
    match convertFormat f with
    | none => negotiateFormat env transform rest
    | some (bf, tr) =>
      if tr ≠ transform then negotiateFormat env transform rest
      else if !env.basisSupported bf then negotiateFormat env transform rest
      else if !env.deviceSupported f then negotiateFormat env transform rest
      else
        let _ := probeLevels env (List.range env.levels)
        some f

/-- Accumulated effects of the decode loop (lines 337-352).  The buffer
`malloc`ed for level `i` is named `i`: `allocated` lists the levels whose
buffer was allocated, `transferred` those whose buffer was handed to
`setImage` inside a `PixelBufferDescriptor` carrying the `free` callback `cb`
(the ownership-transfer mechanism, which frees it exactly once), `images` the
levels whose image was set on the texture, and `failedLevel` the level whose
`transcode_image_level` returned false, if any. -/
structure DecodeResult where
  allocated : List Nat
  transferred : List Nat
  images : List Nat
  logs : List LogMsg
  failedLevel : Option Nat
deriving DecidableEq

/-- The decode loop of `load` (lines 337-352), over the list of level
indices.  Per level: `get_image_level_info` is called but its boolean result
is discarded; the level buffer is `malloc`ed; if `transcode_image_level`
fails the "Failed to transcode level" message is logged (with no quiet-flag
guard in the source) and `load` returns `nullptr` — without freeing the
buffer just allocated; otherwise the buffer is wrapped in a
`PixelBufferDescriptor` with the `free` callback and passed to `setImage`. -/
def decodeLoop (env : Env) : List Nat → DecodeResult
  | [] => ⟨[], [], [], [], none⟩
  | i :: rest =>
    let _ := env.levelInfoOk i   -- return value of get_image_level_info: ignored
    if env.transcodeOk i then
      let r := decodeLoop env rest
      ⟨i :: r.allocated, i :: r.transferred, i :: r.images, r.logs, r.failedLevel⟩
    else
      ⟨[i], [], [], [.transcodeFailed i], some i⟩

/-- Everything observable about one `load` call: its outcome, the diagnostic
messages written to the log sink, which level buffers were allocated and
which were handed to the ownership-transfer mechanism, whether the GPU
texture object was built (`Texture::Builder...build(mEngine)`, line 291), and
the value of the `resolvedFormat` variable when negotiation succeeded. -/
structure LoadResult where
  outcome : Outcome
  logs : List LogMsg
  allocated : List Nat
  transferred : List Nat
  textureCreated : Bool
  resolved : Option InternalFormat
deriving DecidableEq

/-- `Ktx2Reader::load` (lines 218-355).  `quiet` is the reader's `mQuiet`
flag; the early diagnostics are emitted under `if (!mQuiet)`.  After the
negotiation pass the code re-runs `convertFormat(resolvedFormat, ...)` for
the BasisU format (line 289; its effect is folded into `env.transcodeOk`),
builds the texture, runs the format switch (whose two `assert(false)` arms
stop the program), then the decode loop. -/
def load (quiet : Bool) (env : Env) (transform : Transform)
    (requested : List InternalFormat) : LoadResult :=
  if !env.initOk then
    { outcome := .failure .codecInit,
      logs := if quiet then [] else [.initFailed],
      allocated := [], transferred := [], textureCreated := false, resolved := none }
  else if !env.startOk then
    { outcome := .failure .transcodeStart,
      logs := if quiet then [] else [.startFailed],
      allocated := [], transferred := [], textureCreated := false, resolved := none }
  else if env.faces = 6 then
    { outcome := .failure .unsupportedLayout,
      logs := if quiet then [] else [.cubemapsUnsupported],
      allocated := [], transferred := [], textureCreated := false, resolved := none }
  else if env.layers > 1 then
    { outcome := .failure .unsupportedLayout,
      logs := if quiet then [] else [.arraysUnsupported],
      allocated := [], transferred := [], textureCreated := false, resolved := none }
  else
    match negotiateFormat env transform requested with
    | none =>
      { outcome := .failure .noCompatibleFormat,
        logs := if quiet then [] else [.noCompatibleFormat],
        allocated := [], transferred := [], textureCreated := false, resolved := none }
    | some resolvedFormat =>
      -- Texture::Builder()...build(mEngine) runs here, before the switch.
      match loadFormatSwitch resolvedFormat with
      | .uncompressedTodo =>
        { outcome := .assertTodoUncompressed, logs := [],
          allocated := [], transferred := [], textureCreated := true,
          resolved := some resolvedFormat }
      | .unreachableDefault =>
        { outcome := .assertUnreachableDefault, logs := [],
          allocated := [], transferred := [], textureCreated := true,
          resolved := some resolvedFormat }
      | .compressed _ =>
        let r := decodeLoop env (List.range env.levels)
        match r.failedLevel with
        | some i =>
          { outcome := .failure (.transcodeFail i), logs := r.logs,
            allocated := r.allocated, transferred := r.transferred,
            textureCreated := true, resolved := some resolvedFormat }
        | none =>
          { outcome := .texture resolvedFormat r.images, logs := r.logs,
            allocated := r.allocated, transferred := r.transferred,
            textureCreated := true, resolved := some resolvedFormat }

/-- Spec-side predicate for claim C1: a requested format is viable for a call
when its implied transform equals the call's transform, the codec supports
its BasisU format for the container's source format, and the device supports
it.  (Stated from the spec's words, to be compared with `negotiateFormat`.) -/
def viableFormat (env : Env) (transform : Transform) (f : InternalFormat) : Bool :=
  match convertFormat f with
  | none => false
  | some (bf, tr) =>
    decide (tr = transform) && env.basisSupported bf && env.deviceSupported f

/-- Whether a log message is the (unguarded) per-level transcode-failure
message. -/
def LogMsg.isTranscodeFailed : LogMsg → Bool
  | .transcodeFailed _ => true
  | _ => false

/-- Whether an outcome is anything other than the `default:` branch's
"Unreachable" assertion. -/
def Outcome.avoidsUnreachableDefault : Outcome → Bool
  | .assertUnreachableDefault => false
  | _ => true

/-- An environment in which everything succeeds: a 1-level, 1-face, 1-layer
container, every format supported by codec and device. -/
def envAllOk : Env :=
  { initOk := true, startOk := true, faces := 1, layers := 1, levels := 1,
    basisSupported := fun _ => true, deviceSupported := fun _ => true,
    levelInfoOk := fun _ => true, transcodeOk := fun _ => true }

/-- Like `envAllOk` but `transcode_image_level` fails on level 0. -/
def envTranscodeFail0 : Env := { envAllOk with transcodeOk := fun _ => false }

/-- Like `envAllOk` but `get_image_level_info` fails on every level. -/
def envNoLevelInfo : Env := { envAllOk with levelInfoOk := fun _ => false }

/-- Like `envAllOk` but the container reports 6 faces (a cubemap). -/
def envCubemap : Env := { envAllOk with faces := 6 }

/-- The negotiation pass picks exactly the first list element satisfying the
spec's three viability conditions: the loop of lines 253-279 is
`List.find?` of `viableFormat`. -/
theorem negotiateFormat_eq_find (env : Env) (t : Transform) :
    ∀ reqs : List InternalFormat,
      negotiateFormat env t reqs = reqs.find? (viableFormat env t)
  | [] => rfl
  | f :: rest => by
    have ih := negotiateFormat_eq_find env t rest
    unfold negotiateFormat
    cases hc : convertFormat f with
    | none => simp [List.find?, viableFormat, hc, ih]
    | some p =>
      obtain ⟨bf, tr⟩ := p
      by_cases ht : tr = t
      · subst ht
        by_cases hb : env.basisSupported bf = true
        · by_cases hd : env.deviceSupported f = true
          · simp [List.find?, viableFormat, hc, hb, hd]
          · simp [List.find?, viableFormat, hc, hb, hd, ih]
        · simp [List.find?, viableFormat, hc, hb, ih]
      · simp [List.find?, viableFormat, hc, ht, ih]

/-- A format negotiation settles on is in `convertFormat`'s table. -/
theorem negotiateFormat_some_convert (env : Env) (t : Transform)
    (reqs : List InternalFormat) (f : InternalFormat)
    (h : negotiateFormat env t reqs = some f) : convertFormat f ≠ none := by
  rw [negotiateFormat_eq_find] at h
  have hv := List.find?_some h
  intro hc
  simp [viableFormat, hc] at hv

/-- Only formats outside `convertFormat`'s table reach the decode switch's
`default:` branch. -/
theorem switch_unreachable_convert (f : InternalFormat)
    (h : loadFormatSwitch f = SwitchResult.unreachableDefault) :
    convertFormat f = none := by
  cases f <;> simp_all [loadFormatSwitch, convertFormat]

/-- Negotiation does not depend on the per-level metadata oracle. -/
theorem negotiateFormat_levelInfo_irrel (env : Env) (g : Nat → Bool) (t : Transform) :
    ∀ reqs : List InternalFormat,
      negotiateFormat { env with levelInfoOk := g } t reqs = negotiateFormat env t reqs
  | [] => rfl
  | f :: rest => by
    have ih := negotiateFormat_levelInfo_irrel env g t rest
    unfold negotiateFormat
    cases hc : convertFormat f <;> simp [hc, ih]

/-- The decode loop does not depend on the per-level metadata oracle (the
source discards the result of `get_image_level_info` there). -/
theorem decodeLoop_levelInfo_irrel (env : Env) (g : Nat → Bool) :
    ∀ l : List Nat, decodeLoop { env with levelInfoOk := g } l = decodeLoop env l
  | [] => rfl
  | i :: rest => by
    have ih := decodeLoop_levelInfo_irrel env g rest
    unfold decodeLoop
    simp [ih]

/-- Every message the decode loop logs is a transcode-failure message. -/
theorem decodeLoop_logs_filter (env : Env) :
    ∀ l : List Nat,
      ((decodeLoop env l).logs).filter LogMsg.isTranscodeFailed = (decodeLoop env l).logs
  | [] => rfl
  | i :: rest => by
    have ih := decodeLoop_logs_filter env rest
    unfold decodeLoop
    by_cases h : env.transcodeOk i = true <;>
      simp [h, ih, LogMsg.isTranscodeFailed]

/-- C1: for every load call that passes codec init, transcode start and the
layout checks, the resolved format is exactly the first entry of the
requested-format list (insertion order) whose implied transform equals the
call's, whose BasisU format the codec supports for the container, and which
the device supports; the per-level metadata probe (oracle `g`) never changes
the resolution; and when no entry qualifies, load fails with the
no-compatible-format error. -/
theorem c1_resolved_is_first_viable (quiet : Bool) (env : Env) (g : Nat → Bool)
    (t : Transform) (reqs : List InternalFormat)
    (h1 : env.initOk = true) (h2 : env.startOk = true)
    (h3 : env.faces ≠ 6) (h4 : env.layers ≤ 1) :
    (load quiet env t reqs).resolved = reqs.find? (viableFormat env t)
    ∧ (load quiet { env with levelInfoOk := g } t reqs).resolved
        = reqs.find? (viableFormat env t)
    ∧ (reqs.find? (viableFormat env t) = none →
        (load quiet env t reqs).outcome = Outcome.failure LoadError.noCompatibleFormat) := by
  have h4' : ¬ env.layers > 1 := by omega
  have hmain : ∀ e : Env, e.initOk = true → e.startOk = true → e.faces ≠ 6 →
      ¬ e.layers > 1 →
      (load quiet e t reqs).resolved = negotiateFormat e t reqs := by
    intro e e1 e2 e3 e4
    unfold load
    cases hneg : negotiateFormat e t reqs with
    | none => simp [e1, e2, e3, e4, hneg]
    | some f =>
      cases hsw : loadFormatSwitch f with
      | compressed c =>
        cases hfl : (decodeLoop e (List.range e.levels)).failedLevel <;>
          simp [e1, e2, e3, e4, hneg, hsw, hfl]
      | uncompressedTodo => simp [e1, e2, e3, e4, hneg, hsw]
      | unreachableDefault => simp [e1, e2, e3, e4, hneg, hsw]
  refine ⟨?_, ?_, ?_⟩
  · rw [hmain env h1 h2 h3 h4', negotiateFormat_eq_find]
  · rw [hmain { env with levelInfoOk := g } h1 h2 h3 h4',
      negotiateFormat_levelInfo_irrel, negotiateFormat_eq_find]
  · intro hnone
    have hneg : negotiateFormat env t reqs = none := by
      rw [negotiateFormat_eq_find]; exact hnone
    unfold load
    simp [h1, h2, h3, h4', hneg]

/-- C1 witness: with both ETC2 formats requested and an sRGB call, the first
transform-matching entry (the second of the list) is resolved. -/
theorem c1_witness :
    ((load false envAllOk .sRGB
        [InternalFormat.ETC2_EAC_RGBA8, InternalFormat.ETC2_EAC_SRGBA8]).resolved
      = [InternalFormat.ETC2_EAC_RGBA8, InternalFormat.ETC2_EAC_SRGBA8].find?
          (viableFormat envAllOk .sRGB))
    ∧ ((load false { envAllOk with levelInfoOk := fun _ => false } .sRGB
        [InternalFormat.ETC2_EAC_RGBA8, InternalFormat.ETC2_EAC_SRGBA8]).resolved
      = [InternalFormat.ETC2_EAC_RGBA8, InternalFormat.ETC2_EAC_SRGBA8].find?
          (viableFormat envAllOk .sRGB))
    ∧ ([InternalFormat.ETC2_EAC_RGBA8, InternalFormat.ETC2_EAC_SRGBA8].find?
          (viableFormat envAllOk .sRGB) = none →
        (load false envAllOk .sRGB
          [InternalFormat.ETC2_EAC_RGBA8, InternalFormat.ETC2_EAC_SRGBA8]).outcome
            = Outcome.failure LoadError.noCompatibleFormat) :=
  c1_resolved_is_first_viable false envAllOk (fun _ => false) .sRGB
    [InternalFormat.ETC2_EAC_RGBA8, InternalFormat.ETC2_EAC_SRGBA8]
    rfl rfl (by decide) (by decide)

/-- C2 (bug evaluation): when `transcode_image_level` fails on level 0, the
buffer just `malloc`ed for that level has been allocated but load returns
without freeing it and without handing it to the ownership-transfer
mechanism — it is leaked, contrary to the claim that every decoded level
buffer is freed exactly once on every exit path. -/
theorem c2_transcode_failure_leaks_level_buffer :
    (load false envTranscodeFail0 .sRGB [InternalFormat.ETC2_EAC_SRGBA8]).outcome
        = Outcome.failure (LoadError.transcodeFail 0)
    ∧ (load false envTranscodeFail0 .sRGB [InternalFormat.ETC2_EAC_SRGBA8]).allocated = [0]
    ∧ (load false envTranscodeFail0 .sRGB [InternalFormat.ETC2_EAC_SRGBA8]).transferred = [] := by
  decide

/-- C3 counterexample: with `get_image_level_info` failing on every level,
load does not fail — it proceeds to allocate and transcode the level and
returns a texture, so a decode-pass metadata failure is not a hard gate and
no level-metadata error exists. -/
theorem c3_counterexample_level_info_ignored :
    (load false envNoLevelInfo .sRGB [InternalFormat.ETC2_EAC_SRGBA8]).outcome
        = Outcome.texture InternalFormat.ETC2_EAC_SRGBA8 [0]
    ∧ (load false envNoLevelInfo .sRGB [InternalFormat.ETC2_EAC_SRGBA8]).allocated = [0]
    ∧ (load false envNoLevelInfo .sRGB [InternalFormat.ETC2_EAC_SRGBA8]).transferred = [0] := by
  decide

/-- C3 (amended): the decode pass calls `get_image_level_info` but discards
its boolean result, so the whole of load — outcome, logs, buffers, texture
creation — is independent of the per-level metadata oracle: a metadata
failure never aborts the call and the level is still allocated and
transcoded. -/
theorem c3_load_ignores_level_metadata (quiet : Bool) (env : Env) (g : Nat → Bool)
    (t : Transform) (reqs : List InternalFormat) :
    load quiet { env with levelInfoOk := g } t reqs = load quiet env t reqs := by
  unfold load
  simp [negotiateFormat_levelInfo_irrel, decodeLoop_levelInfo_irrel]

/-- C4: a container reporting 6 faces or more than one layer makes load fail
with the unsupported-layout error, whatever the requested-format list: no
format is resolved, no GPU texture is built and no level buffer is
allocated. -/
theorem c4_layout_rejection (quiet : Bool) (env : Env) (t : Transform)
    (reqs : List InternalFormat)
    (h1 : env.initOk = true) (h2 : env.startOk = true)
    (h : env.faces = 6 ∨ env.layers > 1) :
    (load quiet env t reqs).outcome = Outcome.failure LoadError.unsupportedLayout
    ∧ (load quiet env t reqs).textureCreated = false
    ∧ (load quiet env t reqs).allocated = []
    ∧ (load quiet env t reqs).resolved = none := by
  unfold load
  rcases h with hf | hl
  · simp [h1, h2, hf]
  · by_cases hf : env.faces = 6
    · simp [h1, h2, hf]
    · simp [h1, h2, hf, hl]

/-- C4 witness: a 6-face container is rejected as an unsupported layout even
with a viable format requested. -/
theorem c4_layout_rejection_witness :
    (load false envCubemap .sRGB [InternalFormat.ETC2_EAC_SRGBA8]).outcome
        = Outcome.failure LoadError.unsupportedLayout
    ∧ (load false envCubemap .sRGB [InternalFormat.ETC2_EAC_SRGBA8]).textureCreated = false
    ∧ (load false envCubemap .sRGB [InternalFormat.ETC2_EAC_SRGBA8]).allocated = []
    ∧ (load false envCubemap .sRGB [InternalFormat.ETC2_EAC_SRGBA8]).resolved = none :=
  c4_layout_rejection false envCubemap .sRGB [InternalFormat.ETC2_EAC_SRGBA8]
    rfl rfl (Or.inl (by decide))

/-- C5: when negotiation finds no qualifying format (in particular when the
requested list is empty), load fails with the no-compatible-format error
with no GPU texture built and no level buffer allocated or transferred. -/
theorem c5_no_format_no_partial_state (quiet : Bool) (env : Env) (t : Transform)
    (reqs : List InternalFormat)
    (h1 : env.initOk = true) (h2 : env.startOk = true)
    (h3 : env.faces ≠ 6) (h4 : env.layers ≤ 1)
    (hnone : negotiateFormat env t reqs = none) :
    (load quiet env t reqs).outcome = Outcome.failure LoadError.noCompatibleFormat
    ∧ (load quiet env t reqs).textureCreated = false
    ∧ (load quiet env t reqs).allocated = []
    ∧ (load quiet env t reqs).transferred = [] := by
  have h4' : ¬ env.layers > 1 := by omega
  unfold load
  simp [h1, h2, h3, h4', hnone]

/-- C5 witness: an empty requested-format list fails cleanly. -/
theorem c5_no_format_no_partial_state_witness :
    (load false envAllOk .sRGB []).outcome = Outcome.failure LoadError.noCompatibleFormat
    ∧ (load false envAllOk .sRGB []).textureCreated = false
    ∧ (load false envAllOk .sRGB []).allocated = []
    ∧ (load false envAllOk .sRGB []).transferred = [] :=
  c5_no_format_no_partial_state false envAllOk .sRGB []
    rfl rfl (by decide) (by decide) rfl

/-- C6 counterexample: with the quiet flag set, a transcode failure still
emits its diagnostic message (the source writes it without consulting
`mQuiet`), so quiet does not suppress every message load emits. -/
theorem c6_counterexample_quiet_transcode_log :
    (load true envTranscodeFail0 .sRGB [InternalFormat.ETC2_EAC_SRGBA8]).logs
      = [LogMsg.transcodeFailed 0] := by
  decide

/-- C6 (amended): the quiet flag never changes load's outcome, buffers,
texture creation or resolved format, and it suppresses exactly the guarded
diagnostics: with quiet set the emitted messages are precisely the
transcode-failure messages of the unquieted run. -/
theorem c6_quiet_only_filters_guarded_logs (env : Env) (t : Transform)
    (reqs : List InternalFormat) :
    (load true env t reqs).outcome = (load false env t reqs).outcome
    ∧ (load true env t reqs).allocated = (load false env t reqs).allocated
    ∧ (load true env t reqs).transferred = (load false env t reqs).transferred
    ∧ (load true env t reqs).textureCreated = (load false env t reqs).textureCreated
    ∧ (load true env t reqs).resolved = (load false env t reqs).resolved
    ∧ (load true env t reqs).logs
        = ((load false env t reqs).logs).filter LogMsg.isTranscodeFailed := by
  unfold load
  cases h1 : env.initOk with
  | false => simp [LogMsg.isTranscodeFailed]
  | true =>
    cases h2 : env.startOk with
    | false => simp [LogMsg.isTranscodeFailed]
    | true =>
      by_cases h3 : env.faces = 6
      · simp [h3, LogMsg.isTranscodeFailed]
      · by_cases h4 : env.layers > 1
        · simp [h3, h4, LogMsg.isTranscodeFailed]
        · cases hneg : negotiateFormat env t reqs with
          | none => simp [h3, h4, hneg, LogMsg.isTranscodeFailed]
          | some f =>
            cases hsw : loadFormatSwitch f with
            | uncompressedTodo => simp [h3, h4, hneg, hsw]
            | unreachableDefault => simp [h3, h4, hneg, hsw]
            | compressed c =>
              cases hfl : (decodeLoop env (List.range env.levels)).failedLevel <;>
                simp [h3, h4, hneg, hsw, hfl, decodeLoop_logs_filter]

/-- C7: a supported, not-yet-registered format is accepted on the first
`requestFormat` call and rejected on the second, the list afterwards holds
exactly one occurrence of it, and any failing call leaves the list
unchanged. -/
theorem c7_request_format_twice (fmts : List InternalFormat) (f : InternalFormat)
    (gs : List InternalFormat) (g : InternalFormat)
    (hs : (convertFormat f).isSome = true) (hnew : f ∉ fmts)
    (hfail : (requestFormat gs g).1 = false) :
    (requestFormat fmts f).1 = true
    ∧ (requestFormat (requestFormat fmts f).2 f).1 = false
    ∧ (requestFormat (requestFormat fmts f).2 f).2 = (requestFormat fmts f).2
    ∧ ((requestFormat (requestFormat fmts f).2 f).2).count f = 1
    ∧ (requestFormat gs g).2 = gs := by
  obtain ⟨p, hp⟩ := Option.isSome_iff_exists.mp hs
  have h1 : requestFormat fmts f = (true, fmts ++ [f]) := by
    unfold requestFormat
    rw [hp]
    simp [hnew]
  have h2 : requestFormat (fmts ++ [f]) f = (false, fmts ++ [f]) := by
    unfold requestFormat
    rw [hp]
    simp
  have hcount : (fmts ++ [f]).count f = 1 := by
    rw [List.count_append, List.count_eq_zero.mpr hnew]
    simp
  have hkeep : (requestFormat gs g).2 = gs := by
    revert hfail
    unfold requestFormat
    cases hc : convertFormat g with
    | none => intro _; rfl
    | some q =>
      by_cases hm : g ∈ gs
      · intro _; simp [hm]
      · simp [hm]
  exact ⟨by rw [h1], by rw [h1, h2], by rw [h1, h2], by rw [h1, h2]; exact hcount, hkeep⟩

/-- C7 witness: registering `ETC2_EAC_SRGBA8` into an empty list succeeds
then fails, leaving one occurrence; the failing duplicate call mutates
nothing. -/
theorem c7_request_format_twice_witness :
    (requestFormat [] InternalFormat.ETC2_EAC_SRGBA8).1 = true
    ∧ (requestFormat (requestFormat [] InternalFormat.ETC2_EAC_SRGBA8).2
        InternalFormat.ETC2_EAC_SRGBA8).1 = false
    ∧ (requestFormat (requestFormat [] InternalFormat.ETC2_EAC_SRGBA8).2
        InternalFormat.ETC2_EAC_SRGBA8).2
      = (requestFormat [] InternalFormat.ETC2_EAC_SRGBA8).2
    ∧ ((requestFormat (requestFormat [] InternalFormat.ETC2_EAC_SRGBA8).2
        InternalFormat.ETC2_EAC_SRGBA8).2).count InternalFormat.ETC2_EAC_SRGBA8 = 1
    ∧ (requestFormat [InternalFormat.ETC2_EAC_SRGBA8] InternalFormat.ETC2_EAC_SRGBA8).2
      = [InternalFormat.ETC2_EAC_SRGBA8] :=
  c7_request_format_twice [] InternalFormat.ETC2_EAC_SRGBA8
    [InternalFormat.ETC2_EAC_SRGBA8] InternalFormat.ETC2_EAC_SRGBA8
    (by decide) (by decide) (by decide)

/-- C8 (bug evaluation): `getFinalFormatInfo` gives the sRGB ETC2 format the
LINEAR variant's compressed-type tag and vice versa (the same swap affects
the DXT1, DXT3 and ASTC pairs), while the decode-pass switch in `load` maps
each of these formats to its own tag — the two helpers disagree, although
they do agree on the BasisU codec format and the implied transform. -/
theorem c8_final_format_info_swaps_srgb_tags :
    (getFinalFormatInfo InternalFormat.ETC2_EAC_SRGBA8).map
        FinalFormatInfo.compressedPixelDataType
      = some (some CompressedType.ETC2_EAC_RGBA8)
    ∧ (getFinalFormatInfo InternalFormat.ETC2_EAC_RGBA8).map
        FinalFormatInfo.compressedPixelDataType
      = some (some CompressedType.ETC2_EAC_SRGBA8)
    ∧ loadFormatSwitch InternalFormat.ETC2_EAC_SRGBA8
      = SwitchResult.compressed CompressedType.ETC2_EAC_SRGBA8
    ∧ loadFormatSwitch InternalFormat.ETC2_EAC_RGBA8
      = SwitchResult.compressed CompressedType.ETC2_EAC_RGBA8
    ∧ (getFinalFormatInfo InternalFormat.ETC2_EAC_SRGBA8).map
        (fun i => (i.basisFormat, i.transformFunction))
      = (convertFormat InternalFormat.ETC2_EAC_SRGBA8).map (fun q => (q.1, q.2)) := by
  decide

/-- C9: the four uncompressed target formats are in `convertFormat`'s table
(so `requestFormat` accepts them), but when one of them is the resolved
format, the decode pass stops at the explicit `assert(false && "TODO ...")`
with no level buffer allocated or uploaded. -/
theorem c9_uncompressed_resolved_asserts (quiet : Bool) (env : Env) (t : Transform)
    (reqs : List InternalFormat) (f : InternalFormat)
    (hf : f = InternalFormat.SRGB8_A8 ∨ f = InternalFormat.RGBA8
          ∨ f = InternalFormat.RGB565 ∨ f = InternalFormat.RGBA4)
    (h1 : env.initOk = true) (h2 : env.startOk = true)
    (h3 : env.faces ≠ 6) (h4 : env.layers ≤ 1)
    (hres : negotiateFormat env t reqs = some f) :
    (convertFormat f).isSome = true
    ∧ (load quiet env t reqs).outcome = Outcome.assertTodoUncompressed
    ∧ (load quiet env t reqs).allocated = []
    ∧ (load quiet env t reqs).transferred = [] := by
  have h4' : ¬ env.layers > 1 := by omega
  have hsw : loadFormatSwitch f = SwitchResult.uncompressedTodo := by
    rcases hf with rfl | rfl | rfl | rfl <;> rfl
  have hcv : (convertFormat f).isSome = true := by
    rcases hf with rfl | rfl | rfl | rfl <;> rfl
  refine ⟨hcv, ?_⟩
  unfold load
  simp [h1, h2, h3, h4', hres, hsw]

/-- C9 witness: requesting only `SRGB8_A8` on a fully capable device resolves
it and hits the unimplemented-uncompressed assertion. -/
theorem c9_uncompressed_resolved_asserts_witness :
    (convertFormat InternalFormat.SRGB8_A8).isSome = true
    ∧ (load false envAllOk .sRGB [InternalFormat.SRGB8_A8]).outcome
      = Outcome.assertTodoUncompressed
    ∧ (load false envAllOk .sRGB [InternalFormat.SRGB8_A8]).allocated = []
    ∧ (load false envAllOk .sRGB [InternalFormat.SRGB8_A8]).transferred = [] :=
  c9_uncompressed_resolved_asserts false envAllOk .sRGB [InternalFormat.SRGB8_A8]
    InternalFormat.SRGB8_A8 (Or.inl rfl) rfl rfl (by decide) (by decide) (by decide)

/-- C10: no execution of load reaches the decode switch's `default:` branch:
negotiation only accepts formats in `convertFormat`'s table, and every such
format has its own case in the switch. -/
theorem c10_default_branch_unreachable (quiet : Bool) (env : Env) (t : Transform)
    (reqs : List InternalFormat) :
    Outcome.avoidsUnreachableDefault (load quiet env t reqs).outcome = true := by
  unfold load
  cases h1 : env.initOk with
  | false => simp [Outcome.avoidsUnreachableDefault]
  | true =>
    cases h2 : env.startOk with
    | false => simp [Outcome.avoidsUnreachableDefault]
    | true =>
      by_cases h3 : env.faces = 6
      · simp [h3, Outcome.avoidsUnreachableDefault]
      · by_cases h4 : env.layers > 1
        · simp [h3, h4, Outcome.avoidsUnreachableDefault]
        · cases hneg : negotiateFormat env t reqs with
          | none => simp [h3, h4, hneg, Outcome.avoidsUnreachableDefault]
          | some f =>
            cases hsw : loadFormatSwitch f with
            | compressed c =>
              cases hfl : (decodeLoop env (List.range env.levels)).failedLevel <;>
                simp [h3, h4, hneg, hsw, hfl, Outcome.avoidsUnreachableDefault]
            | uncompressedTodo =>
              simp [h3, h4, hneg, hsw, Outcome.avoidsUnreachableDefault]
            | unreachableDefault =>
              exact absurd (switch_unreachable_convert f hsw)
                (negotiateFormat_some_convert env t reqs f hneg)
